import Mathlib

/-!
Verification of the build-and-package pipeline and the invocation request
adapter of a resource-provider plugin.

The development shallowly embeds:
  * `src/src/cfn_resource/request.py` — `RequestContext.__init__` and
    `extract_event_data`, over a Python-value model `PyVal` (dictionaries
    are association lists, indexing raises `KeyError`/`TypeError`);
  * `src/python/rpdk/python/codegen.py` — the packaging pipeline:
    `_check_for_support_lib_sdist`, `_make_pip_command`, `_docker_build`,
    `_pip_build`, `_build`, `_remove_build_artifacts`, and the archive
    assembly done by `package` via `recursive_relative_write`.
-/

/-! ## Python value model (for `request.py`) -/

/-- A Python value as it occurs in invocation events: `None`, booleans,
integers, strings, and string-keyed dictionaries (association lists,
first match wins, mirroring unique-key Python dicts). -/
inductive PyVal where
  | none
  | bool (b : Bool)
  | int (n : Int)
  | str (s : String)
  | dict (entries : List (String × PyVal))

/-- Association-list lookup used for dictionary indexing. -/
def alook : List (String × PyVal) → String → Option PyVal
  | [], _ => Option.none
  | (k', v) :: rest, k => if k' = k then Option.some v else alook rest k

/-- Errors raised by the request adapter: Python `KeyError` (missing
dictionary key) and `TypeError` (indexing a non-dictionary). -/
inductive PyErr where
  | keyError (k : String)
  | typeError
  deriving DecidableEq

/-- Python subscription `v[k]`: on a dict, yields the value or raises
`KeyError k`; on any other value, raises `TypeError`. -/
def PyVal.getItem : PyVal → String → Except PyErr PyVal
  | .dict es, k =>
    match alook es k with
    | Option.some v => .ok v
    | Option.none => .error (.keyError k)
  | _, _ => .error .typeError

/-- Python `dict.get(k, d)`: the stored value when the key is present,
otherwise the default.  (Only ever applied to values already known to be
dictionaries in the embedded code paths.) -/
def PyVal.dictGet (v : PyVal) (k : String) (d : PyVal) : PyVal :=
  match v with
  | .dict es =>
    match alook es k with
    | Option.some x => x
    | Option.none => d
  | _ => d

/-- Python `k in v` for dictionaries. -/
def PyVal.hasKey : PyVal → String → Bool
  | .dict es, k => (alook es k).isSome
  | _, _ => false

/-- Dictionary lookup as an `Option` (`Option.none` for non-dicts). -/
def PyVal.look : PyVal → String → Option PyVal
  | .dict es, k => alook es k
  | _, _ => Option.none

/-- Python truthiness: `None` is falsy, numbers and strings are truthy
unless zero/empty, dictionaries are truthy unless empty. -/
def PyVal.truthy : PyVal → Bool
  | .none => false
  | .bool b => b
  | .int n => n != 0
  | .str s => s != ""
  | .dict es => !es.isEmpty

/-! ## Request adapter (`request.py`) -/

/-- The runtime-provided handle; only the remaining-time accessor is
consumed (`context.get_remaining_time_in_millis`, request.py line 20). -/
structure LambdaContext where
  get_remaining_time_in_millis : Unit → Int

/-- The structured request model — the fields assigned by
`RequestContext.__init__` (request.py lines 11-22). -/
structure RequestContext where
  aws_account_id : PyVal
  region : PyVal
  resource_type : PyVal
  resource_type_version : PyVal
  stack_id : PyVal
  logical_resource_id : PyVal
  resource_properties : PyVal
  system_tags : PyVal
  stack_tags : PyVal
  get_remaining_time_in_millis : Unit → Int
  invocation_count : PyVal
  previous_stack_tags : PyVal

/-- `RequestContext.__init__` (request.py lines 10-22): required fields by
subscription (raising on absence), optional fields via `.get` with
defaults `{}` / `0`. -/
def RequestContext.build (request : PyVal) (context : LambdaContext) :
    Except PyErr RequestContext := do
  let aws_account_id ← request.getItem "awsAccountId"
  let region ← request.getItem "region"
  let resource_type ← request.getItem "resourceType"
  let resource_type_version ← request.getItem "resourceTypeVersion"
  let stack_id ← request.getItem "stackId"
  let requestData ← request.getItem "requestData"
  let logical_resource_id ← requestData.getItem "logicalResourceId"
  let resource_properties ← requestData.getItem "resourceProperties"
  let system_tags ← requestData.getItem "systemTags"
  let stack_tags := requestData.dictGet "stackTags" (.dict [])
  let invocation_count :=
    (request.dictGet "requestContext" (.dict [])).dictGet "invocation" (.int 0)
  let previous_stack_tags := requestData.dictGet "previousStackTags" (.dict [])
  return {
    aws_account_id := aws_account_id
    region := region
    resource_type := resource_type
    resource_type_version := resource_type_version
    stack_id := stack_id
    logical_resource_id := logical_resource_id
    resource_properties := resource_properties
    system_tags := system_tags
    stack_tags := stack_tags
    get_remaining_time_in_millis := context.get_remaining_time_in_millis
    invocation_count := invocation_count
    previous_stack_tags := previous_stack_tags
  }

/-- Modelled from the spec: the framework-level error taxonomy (§7) maps a
missing-key condition during request construction to
`MalformedRequestError`; that mapping layer is not among the sources, only
`RequestContext.__init__` is. -/
inductive AdapterError where
  | malformedRequestError (e : PyErr)
  deriving DecidableEq

/-- Modelled from the spec (§4.6 `build_context`): construct the request
context, surfacing any missing-key condition as `MalformedRequestError`. -/
def build_context (request : PyVal) (context : LambdaContext) :
    Except AdapterError RequestContext :=
  (RequestContext.build request context).mapError (fun e => .malformedRequestError e)

/-- `extract_event_data` (request.py lines 25-35).  Note line 33 subscripts
`event["requestContext"]` directly before testing truthiness. -/
def extract_event_data (event : PyVal) : Except PyErr (PyVal × PyVal × PyVal) := do
  let requestData ← event.getItem "requestData"
  let resource_properties ← requestData.getItem "resourceProperties"
  let previous_resource_properties ←
    if requestData.hasKey "previousResourceProperties" then
      requestData.getItem "previousResourceProperties"
    else
      pure (PyVal.dict [])
  let requestContext ← event.getItem "requestContext"
  let callback_context ←
    if requestContext.truthy then
      requestContext.getItem "callbackContext"
    else
      pure (PyVal.dict [])
  return (resource_properties, previous_resource_properties, callback_context)

/-- The required keys of an invocation event: five top-level fields plus
three fields nested under `requestData` (request.py lines 11-18). -/
def hasAllRequired (request : PyVal) : Bool :=
  request.hasKey "awsAccountId" && request.hasKey "region" &&
  request.hasKey "resourceType" && request.hasKey "resourceTypeVersion" &&
  request.hasKey "stackId" &&
  (match request.look "requestData" with
   | Option.some rd =>
     rd.hasKey "logicalResourceId" && rd.hasKey "resourceProperties" &&
     rd.hasKey "systemTags"
   | Option.none => false)

/-! ## Basic `Except` reduction lemmas -/

theorem exc_bind_ok (a : α) (f : α → Except ε β) : (Except.ok a >>= f) = f a := rfl

theorem exc_bind_err (e : ε) (f : α → Except ε β) :
    ((Except.error e : Except ε α) >>= f) = Except.error e := rfl

theorem exc_pure_eq (a : α) : (pure a : Except ε α) = Except.ok a := rfl

/-! ## Helper lemmas about the request adapter -/

theorem getItem_ok_dict (v : PyVal) (k : String) (x : PyVal)
    (h : v.getItem k = .ok x) :
    ∃ es, v = .dict es ∧ alook es k = Option.some x := by
  cases v with
  | dict es =>
    refine ⟨es, rfl, ?_⟩
    cases hl : alook es k with
    | none => simp [PyVal.getItem, hl] at h
    | some y => simp [PyVal.getItem, hl] at h; rw [h]
  | none => exact absurd h (by simp [PyVal.getItem])
  | bool b => exact absurd h (by simp [PyVal.getItem])
  | int n => exact absurd h (by simp [PyVal.getItem])
  | str s => exact absurd h (by simp [PyVal.getItem])

theorem hasKey_getItem_ok (v : PyVal) (k : String)
    (h : v.hasKey k = true) : ∃ x, v.getItem k = .ok x := by
  cases v with
  | dict es =>
    cases hl : alook es k with
    | none => simp [PyVal.hasKey, hl] at h
    | some y => exact ⟨y, by simp [PyVal.getItem, hl]⟩
  | none => exact absurd h (by simp [PyVal.hasKey])
  | bool b => exact absurd h (by simp [PyVal.hasKey])
  | int n => exact absurd h (by simp [PyVal.hasKey])
  | str s => exact absurd h (by simp [PyVal.hasKey])

theorem build_eq_ok (es ds : List (String × PyVal)) (c : LambdaContext)
    (a r rt rv si l rp st : PyVal)
    (h1 : alook es "awsAccountId" = Option.some a)
    (h2 : alook es "region" = Option.some r)
    (h3 : alook es "resourceType" = Option.some rt)
    (h4 : alook es "resourceTypeVersion" = Option.some rv)
    (h5 : alook es "stackId" = Option.some si)
    (h6 : alook es "requestData" = Option.some (.dict ds))
    (h7 : alook ds "logicalResourceId" = Option.some l)
    (h8 : alook ds "resourceProperties" = Option.some rp)
    (h9 : alook ds "systemTags" = Option.some st) :
    RequestContext.build (.dict es) c = .ok {
      aws_account_id := a, region := r, resource_type := rt,
      resource_type_version := rv, stack_id := si, logical_resource_id := l,
      resource_properties := rp, system_tags := st,
      stack_tags := PyVal.dictGet (.dict ds) "stackTags" (.dict []),
      get_remaining_time_in_millis := c.get_remaining_time_in_millis,
      invocation_count := PyVal.dictGet
        (PyVal.dictGet (.dict es) "requestContext" (.dict [])) "invocation" (.int 0),
      previous_stack_tags := PyVal.dictGet (.dict ds) "previousStackTags" (.dict []) } := by
  unfold RequestContext.build
  simp [PyVal.getItem, h1, h2, h3, h4, h5, h6, h7, h8, h9, exc_bind_ok]

theorem build_ok_hasAll (request : PyVal) (c : LambdaContext)
    (h : (RequestContext.build request c).isOk = true) :
    hasAllRequired request = true := by
  unfold RequestContext.build at h
  cases h1 : request.getItem "awsAccountId" with
  | error e => rw [h1, exc_bind_err] at h; exact absurd h (by simp [Except.isOk, Except.toBool])
  | ok a =>
  rw [h1, exc_bind_ok] at h
  cases h2 : request.getItem "region" with
  | error e => rw [h2, exc_bind_err] at h; exact absurd h (by simp [Except.isOk, Except.toBool])
  | ok r =>
  rw [h2, exc_bind_ok] at h
  cases h3 : request.getItem "resourceType" with
  | error e => rw [h3, exc_bind_err] at h; exact absurd h (by simp [Except.isOk, Except.toBool])
  | ok rt =>
  rw [h3, exc_bind_ok] at h
  cases h4 : request.getItem "resourceTypeVersion" with
  | error e => rw [h4, exc_bind_err] at h; exact absurd h (by simp [Except.isOk, Except.toBool])
  | ok rv =>
  rw [h4, exc_bind_ok] at h
  cases h5 : request.getItem "stackId" with
  | error e => rw [h5, exc_bind_err] at h; exact absurd h (by simp [Except.isOk, Except.toBool])
  | ok si =>
  rw [h5, exc_bind_ok] at h
  cases h6 : request.getItem "requestData" with
  | error e => rw [h6, exc_bind_err] at h; exact absurd h (by simp [Except.isOk, Except.toBool])
  | ok rd =>
  rw [h6, exc_bind_ok] at h
  cases h7 : rd.getItem "logicalResourceId" with
  | error e => rw [h7, exc_bind_err] at h; exact absurd h (by simp [Except.isOk, Except.toBool])
  | ok l =>
  rw [h7, exc_bind_ok] at h
  cases h8 : rd.getItem "resourceProperties" with
  | error e => rw [h8, exc_bind_err] at h; exact absurd h (by simp [Except.isOk, Except.toBool])
  | ok rp =>
  rw [h8, exc_bind_ok] at h
  cases h9 : rd.getItem "systemTags" with
  | error e => rw [h9, exc_bind_err] at h; exact absurd h (by simp [Except.isOk, Except.toBool])
  | ok st =>
  obtain ⟨es, hreq, ha1⟩ := getItem_ok_dict _ _ _ h1
  obtain ⟨ds, hrd, ha7⟩ := getItem_ok_dict _ _ _ h7
  obtain ⟨es2, hreq2, ha2⟩ := getItem_ok_dict _ _ _ h2
  obtain ⟨es3, hreq3, ha3⟩ := getItem_ok_dict _ _ _ h3
  obtain ⟨es4, hreq4, ha4⟩ := getItem_ok_dict _ _ _ h4
  obtain ⟨es5, hreq5, ha5⟩ := getItem_ok_dict _ _ _ h5
  obtain ⟨es6, hreq6, ha6⟩ := getItem_ok_dict _ _ _ h6
  obtain ⟨ds8, hrd8, ha8⟩ := getItem_ok_dict _ _ _ h8
  obtain ⟨ds9, hrd9, ha9⟩ := getItem_ok_dict _ _ _ h9
  subst hreq
  cases hreq2; cases hreq3; cases hreq4; cases hreq5; cases hreq6
  subst hrd
  cases hrd8; cases hrd9
  unfold hasAllRequired
  simp [PyVal.hasKey, PyVal.look, ha1, ha2, ha3, ha4, ha5, ha6, ha7, ha8, ha9]

theorem exc_mapError_ok (a : α) (f : ε → ε') :
    (Except.ok a : Except ε α).mapError f = .ok a := rfl

theorem exc_mapError_err (e : ε) (f : ε → ε') :
    (Except.error e : Except ε α).mapError f = .error (f e) := rfl


theorem exc_map_ok (a : α) (f : α → β) :
    (f <$> (Except.ok a : Except ε α)) = .ok (f a) := rfl

theorem exc_map_err (e : ε) (f : α → β) :
    (f <$> (Except.error e : Except ε α)) = .error e := rfl

/-! ## Claims about the request adapter -/

/-- C2 (counterexample): on an event whose `requestContext` key is entirely
absent, `extract_event_data` does not return an empty callback context — it
fails with a key-lookup error on `"requestContext"` (request.py line 33
subscripts the key before testing it). -/
theorem c2_requestContext_absent_raises :
    extract_event_data
      (.dict [("requestData", .dict [("resourceProperties", .dict [])])])
      = .error (.keyError "requestContext") := rfl

/-- C2 (amended): when the `requestContext` key is present but its value
evaluates as empty/false, `extract_event_data` succeeds with
`callback_context = {}`; when the key is absent, it raises
`KeyError "requestContext"` instead of defaulting. -/
theorem c2_callback_context_default (event rd rp : PyVal)
    (h1 : event.getItem "requestData" = .ok rd)
    (h2 : rd.getItem "resourceProperties" = .ok rp) :
    (∀ rc, event.look "requestContext" = Option.some rc → rc.truthy = false →
      ∃ pv, extract_event_data event = .ok (rp, pv, .dict [])) ∧
    (event.look "requestContext" = Option.none →
      extract_event_data event = .error (.keyError "requestContext")) := by
  obtain ⟨ees, hev, -⟩ := getItem_ok_dict _ _ _ h1
  subst hev
  constructor
  · intro rc hrc htr
    simp only [PyVal.look] at hrc
    unfold extract_event_data
    rw [h1, exc_bind_ok, h2, exc_bind_ok]
    cases hpk : rd.hasKey "previousResourceProperties" with
    | false =>
      refine ⟨.dict [], ?_⟩
      simp [hpk, PyVal.getItem, hrc, htr, exc_bind_ok, exc_bind_err, exc_map_ok,
        exc_map_err, exc_pure_eq]
    | true =>
      obtain ⟨x, hx⟩ := hasKey_getItem_ok rd _ hpk
      refine ⟨x, ?_⟩
      simp only [hx, exc_bind_ok, exc_pure_eq]
      simp [PyVal.getItem, hrc, htr, exc_bind_ok, exc_bind_err, exc_map_ok,
        exc_map_err, exc_pure_eq]
  · intro hnone
    simp only [PyVal.look] at hnone
    unfold extract_event_data
    rw [h1, exc_bind_ok, h2, exc_bind_ok]
    cases hpk : rd.hasKey "previousResourceProperties" with
    | false =>
      simp [hpk, PyVal.getItem, hnone, exc_bind_ok, exc_bind_err, exc_map_ok,
        exc_map_err, exc_pure_eq]
    | true =>
      obtain ⟨x, hx⟩ := hasKey_getItem_ok rd _ hpk
      simp only [hx, exc_bind_ok, exc_pure_eq]
      simp [PyVal.getItem, hnone, exc_bind_ok, exc_bind_err, exc_map_ok,
        exc_map_err, exc_pure_eq]

/-- Witness for the amended C2: a concrete event with a falsy (`None`)
`requestContext` yields `callback_context = {}`, and a concrete event with
no `requestContext` key raises `KeyError "requestContext"`. -/
theorem c2_callback_context_default_witness :
    (∃ pv, extract_event_data
        (.dict [("requestData", .dict [("resourceProperties", .dict [("A", .int 1)])]),
                ("requestContext", .none)])
      = .ok (.dict [("A", .int 1)], pv, .dict [])) ∧
    extract_event_data
        (.dict [("requestData", .dict [("resourceProperties", .dict [])]),
                ("x", .int 1)])
      = .error (.keyError "requestContext") :=
  ⟨(c2_callback_context_default
      (.dict [("requestData", .dict [("resourceProperties", .dict [("A", .int 1)])]),
              ("requestContext", .none)])
      (.dict [("resourceProperties", .dict [("A", .int 1)])])
      (.dict [("A", .int 1)]) rfl rfl).1 .none rfl rfl,
   (c2_callback_context_default
      (.dict [("requestData", .dict [("resourceProperties", .dict [])]), ("x", .int 1)])
      (.dict [("resourceProperties", .dict [])])
      (.dict []) rfl rfl).2 rfl⟩

/-- C9: when the `requestContext` block is present and truthy but lacks the
`callbackContext` key, `extract_event_data` raises the key-lookup failure
`KeyError "callbackContext"` rather than defaulting to an empty mapping
(request.py line 34). -/
theorem c9_callbackContext_missing_raises (event rd rp : PyVal)
    (rcs : List (String × PyVal))
    (h1 : event.getItem "requestData" = .ok rd)
    (h2 : rd.getItem "resourceProperties" = .ok rp)
    (h3 : event.look "requestContext" = Option.some (.dict rcs))
    (h4 : rcs ≠ [])
    (h5 : alook rcs "callbackContext" = Option.none) :
    extract_event_data event = .error (.keyError "callbackContext") := by
  obtain ⟨ees, hev, -⟩ := getItem_ok_dict _ _ _ h1
  subst hev
  simp only [PyVal.look] at h3
  have htr : PyVal.truthy (.dict rcs) = true := by
    cases rcs with
    | nil => exact absurd rfl h4
    | cons p t => rfl
  unfold extract_event_data
  rw [h1, exc_bind_ok, h2, exc_bind_ok]
  cases hpk : rd.hasKey "previousResourceProperties" with
  | false =>
    simp [hpk, PyVal.getItem, h3, htr, h5, exc_bind_ok, exc_bind_err, exc_map_ok,
      exc_map_err, exc_pure_eq]
  | true =>
    obtain ⟨x, hx⟩ := hasKey_getItem_ok rd _ hpk
    simp only [hx, exc_bind_ok, exc_pure_eq]
    simp [PyVal.getItem, h3, htr, h5, exc_bind_ok, exc_bind_err, exc_map_ok,
      exc_map_err, exc_pure_eq]

/-- Witness for C9: a concrete event whose truthy `requestContext` lacks
`callbackContext` raises `KeyError "callbackContext"`. -/
theorem c9_callbackContext_missing_raises_witness :
    extract_event_data
      (.dict [("requestData", .dict [("resourceProperties", .dict [])]),
              ("requestContext", .dict [("invocation", .int 2)])])
      = .error (.keyError "callbackContext") :=
  c9_callbackContext_missing_raises
    (.dict [("requestData", .dict [("resourceProperties", .dict [])]),
            ("requestContext", .dict [("invocation", .int 2)])])
    (.dict [("resourceProperties", .dict [])]) (.dict [])
    [("invocation", .int 2)] rfl rfl rfl (by simp) rfl

/-- C3: on a minimal valid event — all required keys present, none of the
optional keys `stackTags`, `previousStackTags`, `requestContext` — the
request context is built successfully with `stack_tags = {}`,
`previous_stack_tags = {}` and `invocation_count = 0`
(request.py lines 19, 21, 22). -/
theorem c3_minimal_event_defaults (request : PyVal) (c : LambdaContext) (rd : PyVal)
    (hall : hasAllRequired request = true)
    (hrd : request.look "requestData" = Option.some rd)
    (hst : rd.look "stackTags" = Option.none)
    (hpst : rd.look "previousStackTags" = Option.none)
    (hrc : request.look "requestContext" = Option.none) :
    ∃ ctx : RequestContext, build_context request c = .ok ctx ∧
      ctx.stack_tags = .dict [] ∧ ctx.previous_stack_tags = .dict [] ∧
      ctx.invocation_count = .int 0 := by
  cases request with
  | none => exact absurd hall (by simp [hasAllRequired, PyVal.hasKey])
  | bool b => exact absurd hall (by simp [hasAllRequired, PyVal.hasKey])
  | int n => exact absurd hall (by simp [hasAllRequired, PyVal.hasKey])
  | str s => exact absurd hall (by simp [hasAllRequired, PyVal.hasKey])
  | dict es =>
    simp only [PyVal.look] at hrd hrc
    rw [hasAllRequired] at hall
    simp only [PyVal.hasKey, PyVal.look, hrd, Bool.and_eq_true] at hall
    obtain ⟨⟨⟨⟨⟨ha1, ha2⟩, ha3⟩, ha4⟩, ha5⟩, hnest⟩ := hall
    obtain ⟨a, ha1⟩ := Option.isSome_iff_exists.mp ha1
    obtain ⟨r, ha2⟩ := Option.isSome_iff_exists.mp ha2
    obtain ⟨rt, ha3⟩ := Option.isSome_iff_exists.mp ha3
    obtain ⟨rv, ha4⟩ := Option.isSome_iff_exists.mp ha4
    obtain ⟨si, ha5⟩ := Option.isSome_iff_exists.mp ha5
    cases rd with
    | none => exact absurd hnest (by simp [PyVal.hasKey])
    | bool b => exact absurd hnest (by simp [PyVal.hasKey])
    | int n => exact absurd hnest (by simp [PyVal.hasKey])
    | str s => exact absurd hnest (by simp [PyVal.hasKey])
    | dict ds =>
      simp only [PyVal.hasKey, Bool.and_eq_true] at hnest
      obtain ⟨⟨h7, h8⟩, h9⟩ := hnest
      obtain ⟨l, h7⟩ := Option.isSome_iff_exists.mp h7
      obtain ⟨rp, h8⟩ := Option.isSome_iff_exists.mp h8
      obtain ⟨st, h9⟩ := Option.isSome_iff_exists.mp h9
      simp only [PyVal.look] at hst hpst
      refine ⟨RequestContext.mk a r rt rv si l rp st
        (PyVal.dictGet (.dict ds) "stackTags" (.dict []))
        c.get_remaining_time_in_millis
        (PyVal.dictGet
          (PyVal.dictGet (.dict es) "requestContext" (.dict [])) "invocation" (.int 0))
        (PyVal.dictGet (.dict ds) "previousStackTags" (.dict [])),
        ?_, ?_, ?_, ?_⟩
      · rw [build_context,
          build_eq_ok es ds c a r rt rv si l rp st ha1 ha2 ha3 ha4 ha5 hrd h7 h8 h9,
          exc_mapError_ok]
      · simp [PyVal.dictGet, hst]
      · simp [PyVal.dictGet, hpst]
      · simp [PyVal.dictGet, hrc, alook]

/-- Witness for C3: the spec's concrete minimal scenario event yields the
three documented defaults. -/
theorem c3_minimal_event_defaults_witness :
    ∃ ctx : RequestContext,
      build_context
        (.dict [("requestData", .dict [("logicalResourceId", .str "X"),
                  ("resourceProperties", .dict [("A", .int 1)]),
                  ("systemTags", .dict [])]),
                ("awsAccountId", .str "1"), ("region", .str "us-east-1"),
                ("resourceType", .str "T"), ("resourceTypeVersion", .str "1"),
                ("stackId", .str "S")])
        ⟨fun _ => 0⟩ = .ok ctx ∧
      ctx.stack_tags = .dict [] ∧ ctx.previous_stack_tags = .dict [] ∧
      ctx.invocation_count = .int 0 :=
  c3_minimal_event_defaults
    (.dict [("requestData", .dict [("logicalResourceId", .str "X"),
              ("resourceProperties", .dict [("A", .int 1)]),
              ("systemTags", .dict [])]),
            ("awsAccountId", .str "1"), ("region", .str "us-east-1"),
            ("resourceType", .str "T"), ("resourceTypeVersion", .str "1"),
            ("stackId", .str "S")])
    ⟨fun _ => 0⟩
    (.dict [("logicalResourceId", .str "X"),
            ("resourceProperties", .dict [("A", .int 1)]),
            ("systemTags", .dict [])])
    rfl rfl rfl rfl rfl

/-- C4: an event lacking any required key (top-level or nested under
`requestData`) makes request-context construction fail with the
malformed-request error mapped from the missing-key condition; no required
field is silently defaulted. -/
theorem c4_missing_required_key_fails (request : PyVal) (c : LambdaContext)
    (h : hasAllRequired request = false) :
    ∃ e, build_context request c = .error (.malformedRequestError e) := by
  cases hb : RequestContext.build request c with
  | error e => exact ⟨e, by rw [build_context, hb, exc_mapError_err]⟩
  | ok ctx =>
    have hok : hasAllRequired request = true :=
      build_ok_hasAll request c (by rw [hb]; rfl)
    rw [hok] at h
    exact absurd h (by simp)

/-- Witness for C4: a concrete event missing `region` (and more) fails. -/
theorem c4_missing_required_key_fails_witness :
    hasAllRequired (.dict [("awsAccountId", .str "1")]) = false ∧
    ∃ e, build_context (.dict [("awsAccountId", .str "1")]) ⟨fun _ => 0⟩
        = .error (.malformedRequestError e) :=
  ⟨rfl, c4_missing_required_key_fails (.dict [("awsAccountId", .str "1")])
    ⟨fun _ => 0⟩ rfl⟩

/-! ## Path and archive model (`codegen.py`, `package` / `recursive_relative_write`) -/

/-- Splits a list of characters at its last dot: the parts strictly before
and strictly after that dot, or nothing when no dot occurs. -/
def splitLastDot : List Char → Option (List Char × List Char)
  | [] => Option.none
  | c :: cs =>
    match splitLastDot cs with
    | Option.some (b, a) => Option.some (c :: b, a)
    | Option.none => if c = '.' then Option.some ([], cs) else Option.none

/-- `pathlib.PurePath.suffix` of a file name: the extension from the last
dot on, and empty when that dot is the name's first character (a bare
dotfile such as `".pyc"`) or its last character. -/
def pySuffix (name : String) : String :=
  match splitLastDot name.toList with
  | Option.some (b, a) =>
    if b = [] ∨ a = [] then "" else String.mk ('.' :: a)
  | Option.none => ""

/-- `s` ends in `suf` in the plain string sense. -/
def endsIn (s suf : String) : Bool := suf.toList.isSuffixOf s.toList

/-- One entry of a recursive directory enumeration (`Path.rglob("*")`),
relative to the enumerated directory: the chain of parent directories, the
final name, and whether the entry is a regular file. -/
structure FsItem where
  parents : List String
  name : String
  isFile : Bool

/-- `ValueError` raised by `PurePath.relative_to` on a non-subpath. -/
inductive PathErr where
  | valueError
  deriving DecidableEq

/-- `PurePath.relative_to`: strip `base` from the front of `p`, failing when
`base` is not a leading portion of `p`.  Paths are component lists. -/
def relativeTo : List String → List String → Option (List String)
  | p, [] => Option.some p
  | [], _ :: _ => Option.none
  | a :: p, b :: q => if a = b then relativeTo p q else Option.none

/-- `recursive_relative_write` (codegen.py lines 153-157): for every
enumerated entry that is a regular file whose suffix is not `".pyc"`, write
it into the archive at `path.relative_to(base_path)`; the returned list is
the sequence of archive names written. -/
def recursive_relative_write (srcPath basePath : List String) :
    List FsItem → Except PathErr (List (List String))
  | [] => .ok []
  | it :: rest =>
    if it.isFile && (pySuffix it.name != ".pyc") then
      match relativeTo (srcPath ++ it.parents ++ [it.name]) basePath with
      | Option.some rel =>
        match recursive_relative_write srcPath basePath rest with
        | .ok out => .ok (rel :: out)
        | .error e => .error e
      | Option.none => .error .valueError
    else recursive_relative_write srcPath basePath rest

/-- Archive-assembly steps 4-5 of `package` (codegen.py lines 159-166):
handler files relative to the package source root (`<root>/src`), then the
build output directory (`<root>/build`) relative to itself. -/
def packageFiles (root : List String) (pkgName : String)
    (handlerItems depsItems : List FsItem) : Except PathErr (List (List String)) :=
  match recursive_relative_write (root ++ ["src", pkgName]) (root ++ ["src"]) handlerItems with
  | .ok h =>
    match recursive_relative_write (root ++ ["build"]) (root ++ ["build"]) depsItems with
    | .ok d => .ok (h ++ d)
    | .error e => .error e
  | .error e => .error e

theorem relativeTo_append (b q : List String) :
    relativeTo (b ++ q) b = Option.some q := by
  induction b with
  | nil => cases q <;> rfl
  | cons x xs ih => simp [relativeTo, ih]

theorem getLastD_append_singleton (l : List α) (x d : α) :
    (l ++ [x]).getLastD d = x := by
  induction l with
  | nil => rfl
  | cons y ys ih => simp [List.getLastD]

theorem splitLastDot_no_dot (s : List Char) (h : ∀ c ∈ s, c ≠ '.') :
    splitLastDot s = Option.none := by
  induction s with
  | nil => rfl
  | cons c cs ih =>
    rw [splitLastDot, ih (fun x hx => h x (List.mem_cons_of_mem _ hx))]
    simp [h c (List.mem_cons_self c cs)]

theorem splitLastDot_append_last (pre s : List Char) (h : ∀ c ∈ s, c ≠ '.') :
    splitLastDot (pre ++ '.' :: s) = Option.some (pre, s) := by
  induction pre with
  | nil => rw [List.nil_append, splitLastDot, splitLastDot_no_dot s h]; rfl
  | cons c cs ih => rw [List.cons_append, splitLastDot, ih]

/-- A name that ends in `".pyc"` yet does not have suffix `".pyc"` can only
be the bare dotfile `".pyc"` itself. -/
theorem endsIn_pyc_eq_dotfile (name : String)
    (hs : pySuffix name ≠ ".pyc")
    (he : endsIn name ".pyc" = true) : name = ".pyc" := by
  have hsuf : [ '.', 'p', 'y', 'c' ] <:+ name.toList := by
    rw [endsIn] at he
    exact List.isSuffixOf_iff_suffix.mp he
  obtain ⟨pre, hpre⟩ := hsuf
  have hsplit : splitLastDot name.toList = Option.some (pre, ['p', 'y', 'c']) := by
    rw [← hpre]
    exact splitLastDot_append_last pre ['p', 'y', 'c'] (by decide)
  rw [pySuffix, hsplit] at hs
  cases pre with
  | nil =>
    apply String.ext
    have : name.toList = ['.', 'p', 'y', 'c'] := by rw [← hpre]; rfl
    exact this
  | cons c cs =>
    exact absurd (by simp : (if (c :: cs : List Char) = [] ∨ (['p', 'y', 'c'] : List Char) = []
      then ("" : String) else String.mk ('.' :: ['p', 'y', 'c'])) = ".pyc") hs

/-- Every archive name produced by `recursive_relative_write` keeps its
final component's suffix away from `".pyc"`. -/
theorem rrw_written_suffix (srcPath basePath ext : List String)
    (hsrc : srcPath = basePath ++ ext) (items : List FsItem)
    (out : List (List String))
    (hout : recursive_relative_write srcPath basePath items = .ok out)
    (q : List String) (hq : q ∈ out) :
    pySuffix (q.getLastD "") ≠ ".pyc" := by
  subst hsrc
  induction items generalizing out with
  | nil =>
    rw [recursive_relative_write] at hout
    simp only [Except.ok.injEq] at hout
    subst hout
    exact absurd hq (by simp)
  | cons it rest ih =>
    rw [recursive_relative_write] at hout
    by_cases hc : (it.isFile && (pySuffix it.name != ".pyc")) = true
    · rw [if_pos hc, List.append_assoc, List.append_assoc, relativeTo_append] at hout
      cases hrec : recursive_relative_write (basePath ++ ext) basePath rest with
      | error e => rw [hrec] at hout; exact absurd hout (by simp)
      | ok out' =>
        rw [hrec] at hout
        simp only [Except.ok.injEq] at hout
        subst hout
        rcases List.mem_cons.mp hq with hq1 | hq2
        · subst hq1
          rw [← List.append_assoc, getLastD_append_singleton]
          have hc' : it.isFile = true ∧ ¬pySuffix it.name = ".pyc" := by
            simpa [bne_iff_ne] using hc
          exact hc'.2
        · exact ih out' hq2 hrec
    · rw [if_neg hc] at hout
      exact ih out hq hout

/-- C6 (amended): no file written into the archive by `package` has the
path suffix `".pyc"`; in terms of plain string endings, an archived file
name ending in `".pyc"` can only be the bare dotfile `".pyc"` itself
(which `pathlib` assigns an empty suffix). -/
theorem c6_archive_pyc_only_dotfile (root : List String) (pkgName : String)
    (handlerItems depsItems : List FsItem) (out : List (List String))
    (hout : packageFiles root pkgName handlerItems depsItems = .ok out) :
    ∀ q ∈ out, endsIn (q.getLastD "") ".pyc" = true → q.getLastD "" = ".pyc" := by
  intro q hq he
  refine endsIn_pyc_eq_dotfile _ ?_ he
  rw [packageFiles] at hout
  cases hh : recursive_relative_write (root ++ ["src", pkgName]) (root ++ ["src"])
      handlerItems with
  | error e => rw [hh] at hout; exact absurd hout (by simp)
  | ok h =>
    rw [hh] at hout
    cases hd : recursive_relative_write (root ++ ["build"]) (root ++ ["build"])
        depsItems with
    | error e => rw [hd] at hout; exact absurd hout (by simp)
    | ok d =>
      rw [hd] at hout
      simp only [Except.ok.injEq] at hout
      subst hout
      rcases List.mem_append.mp hq with hq1 | hq2
      · exact rrw_written_suffix (root ++ ["src", pkgName]) (root ++ ["src"]) [pkgName]
          (by simp) handlerItems h hh q hq1
      · exact rrw_written_suffix (root ++ ["build"]) (root ++ ["build"]) []
          (by simp) depsItems d hd q hq2

/-- Witness for the amended C6: the only archived name ending in `".pyc"`
on a concrete input is the bare dotfile itself. -/
theorem c6_archive_pyc_only_dotfile_witness :
    packageFiles [] "h" [] [FsItem.mk [] ".pyc" true] = .ok [[".pyc"]] ∧
    (([".pyc"] : List String).getLastD "") = ".pyc" :=
  ⟨rfl, c6_archive_pyc_only_dotfile [] "h" [] [FsItem.mk [] ".pyc" true]
    [[".pyc"]] rfl [".pyc"] (by simp) rfl⟩

/-- C6 (counterexample): a regular file named exactly `".pyc"` in the build
output directory has `pathlib` suffix `""`, so `package` writes it into the
archive even though its name ends in `".pyc"` in the string sense. -/
theorem c6_dotfile_pyc_written :
    packageFiles [] "h" [] [FsItem.mk [] ".pyc" true] = .ok [[".pyc"]] ∧
    endsIn ".pyc" ".pyc" = true :=
  ⟨rfl, rfl⟩

/-- C7 (amended): enumerating the build output directory relative to
itself, every regular file except those with suffix `".pyc"` is written at
its own directory-relative path — dependency files land at the archive
root, with no `"build"` component prepended. -/
theorem c7_build_output_flat (base : List String) (items : List FsItem) :
    recursive_relative_write base base items
      = .ok (items.filterMap fun it =>
          if it.isFile && (pySuffix it.name != ".pyc") then
            Option.some (it.parents ++ [it.name])
          else Option.none) := by
  induction items with
  | nil => rfl
  | cons it rest ih =>
    rw [recursive_relative_write]
    by_cases hc : (it.isFile && (pySuffix it.name != ".pyc")) = true
    · rw [if_pos hc, List.append_assoc, relativeTo_append, ih]
      have hc' : it.isFile = true ∧ ¬pySuffix it.name = ".pyc" := by
        simpa [bne_iff_ne] using hc
      simp [List.filterMap_cons, hc'.1, hc'.2]
    · rw [if_neg hc, ih]
      have hfit : (if it.isFile && (pySuffix it.name != ".pyc") then
          Option.some (it.parents ++ [it.name]) else (Option.none : Option (List String)))
          = Option.none := if_neg hc
      rw [List.filterMap_cons, hfit]

/-- C7 (counterexample): a compiled-bytecode file is a regular file in the
build output directory, yet `package` does not write it into the archive —
`recursive_relative_write` filters `".pyc"` files in step 5 too. -/
theorem c7_pyc_dep_not_written :
    (FsItem.mk [] "m.pyc" true).isFile = true ∧
    recursive_relative_write ["p", "build"] ["p", "build"]
      [FsItem.mk [] "m.pyc" true] = .ok [] :=
  ⟨rfl, rfl⟩

/-! ## Build strategies (`codegen.py`, `_docker_build` / `_pip_build`) -/

/-- `SUPPORT_LIB_NAME` (codegen.py line 19). -/
def SUPPORT_LIB_NAME : String := "aws-cloudformation-rpdk-python-lib"

/-- Build-phase errors: `StandardDistNotFoundError` (codegen.py lines 23-24,
the spec's `MissingSupportArtifactError`) and `DownstreamError` wrapping
container or process failures. -/
inductive BuildErr where
  | standardDistNotFound (msg : String)
  | downstreamError (msg : String)
  deriving DecidableEq

/-- One external invocation: a container run (Docker) or a subordinate
OS process run (the Command Runner). -/
inductive ExternalRun where
  | containerRun (image : String) (command : String)
  | processRun (argv : List String) (cwd : String)
  deriving DecidableEq

/-- The observable environment of a build: whether the support sdist
resolves at the project root, and whether the external docker/pip calls
would succeed. -/
structure BuildEnv where
  sdistExists : Bool
  dockerOk : Bool
  pipExecutableFound : Bool
  pipExitZero : Bool
  deriving DecidableEq

/-- The message of `StandardDistNotFoundError` (codegen.py lines 192-193). -/
def sdistMsg (base_path : String) : String :=
  "Could not find packaged CloudFormation support library: " ++ base_path ++
    "/" ++ SUPPORT_LIB_NAME ++ "-0.0.1.tar.gz\n"

/-- `_check_for_support_lib_sdist` (codegen.py lines 185-194):
`(base_path / sdist).resolve(strict=True)`, raising
`StandardDistNotFoundError` when the archive does not exist. -/
def check_for_support_lib_sdist (env : BuildEnv) (base_path : String) :
    Except BuildErr Unit :=
  if env.sdistExists then .ok ()
  else .error (.standardDistNotFound (sdistMsg base_path))

/-- `_make_pip_command` (codegen.py lines 196-212). -/
def make_pip_command (base_path : String) : List String :=
  ["pip", "install",
   "--no-cache-dir",
   "--no-color",
   "--disable-pip-version-check",
   "--upgrade",
   "--find-links", base_path,
   "--requirement", base_path ++ "/requirements.txt",
   "--target", base_path ++ "/build"]

def joinSpace (l : List String) : String := String.intercalate " " l

/-- `_docker_build` (codegen.py lines 214-242): check the sdist, then run
the pip command (joined into one string, against the container-internal
mount path `/project`) in a `lambci/lambda:build-<runtime>` container;
container failures become `DownstreamError`.  Returns the outcome paired
with the list of external invocations attempted. -/
def docker_build (env : BuildEnv) (external_path runtime : String) :
    Except BuildErr Unit × List ExternalRun :=
  match check_for_support_lib_sdist env external_path with
  | .error e => (.error e, [])
  | .ok () =>
    let internal_path := "/project"
    let command := joinSpace (make_pip_command internal_path)
    let image := "lambci/lambda:build-" ++ runtime
    if env.dockerOk then (.ok (), [.containerRun image command])
    else (.error (.downstreamError "Error running docker build"),
          [.containerRun image command])

/-- `_pip_build` (codegen.py lines 244-259): check the sdist, then run the
pip command via the Command Runner (`subprocess_run`) with the project
root as working directory; a missing executable (`FileNotFoundError`) or a
non-zero exit (`CalledProcessError`) becomes `DownstreamError`. -/
def pip_build (env : BuildEnv) (base_path : String) :
    Except BuildErr Unit × List ExternalRun :=
  match check_for_support_lib_sdist env base_path with
  | .error e => (.error e, [])
  | .ok () =>
    let command := make_pip_command base_path
    if env.pipExecutableFound && env.pipExitZero then
      (.ok (), [.processRun command base_path])
    else (.error (.downstreamError "pip build failed"),
          [.processRun command base_path])

/-- `_build` (codegen.py lines 177-183): dispatch on the `use_docker`
flag. -/
def plugin_build (use_docker : Bool) (env : BuildEnv) (base_path runtime : String) :
    Except BuildErr Unit × List ExternalRun :=
  if use_docker then docker_build env base_path runtime
  else pip_build env base_path

/-- The `use_docker` default of `Python36LanguagePlugin.__init__`
(codegen.py line 48). -/
def plugin_init_use_docker : Bool := true

/-- `_init_from_project` (codegen.py line 53):
`project.settings.get("use_docker", True)`. -/
def init_from_project_use_docker (settings : List (String × Bool)) : Bool :=
  match settings.lookup "use_docker" with
  | Option.some v => v
  | Option.none => true

/-- The dependency build performed by `package` (codegen.py lines 148-163):
`_init_from_project` reads the strategy flag, then `_build` dispatches. -/
def package_build (settings : List (String × Bool)) (env : BuildEnv)
    (base_path runtime : String) : Except BuildErr Unit × List ExternalRun :=
  plugin_build (init_from_project_use_docker settings) env base_path runtime

/-- `shutil.rmtree` on the build output directory, as a function of whether
the directory exists: removing a missing directory raises
`FileNotFoundError`. -/
inductive FsError where
  | fileNotFound
  deriving DecidableEq

def rmtree (dirExists : Bool) : Except FsError Unit :=
  if dirExists then .ok () else .error .fileNotFound

/-- `_remove_build_artifacts` (codegen.py lines 170-175): `rmtree` with
`FileNotFoundError` caught and logged. -/
def remove_build_artifacts (dirExists : Bool) : Except FsError Unit :=
  match rmtree dirExists with
  | .ok () => .ok ()
  | .error .fileNotFound => .ok ()

/-! ## Claims about the build pipeline -/

/-- C1: with the support sdist missing, both strategies fail with
`StandardDistNotFoundError` and attempt zero external invocations — no
container is started and no process is launched. -/
theorem c1_missing_sdist_fails_fast (use_docker : Bool) (env : BuildEnv)
    (base_path runtime : String) (h : env.sdistExists = false) :
    plugin_build use_docker env base_path runtime
      = (.error (.standardDistNotFound (sdistMsg base_path)), []) := by
  cases use_docker with
  | true => simp [plugin_build, docker_build, check_for_support_lib_sdist, h]
  | false => simp [plugin_build, pip_build, check_for_support_lib_sdist, h]

/-- Witness for C1: a concrete environment without the sdist makes both
strategies fail fast with an empty invocation trace. -/
theorem c1_missing_sdist_fails_fast_witness :
    BuildEnv.sdistExists ⟨false, true, true, true⟩ = false ∧
    plugin_build true ⟨false, true, true, true⟩ "/proj" "python3.6"
      = (.error (.standardDistNotFound (sdistMsg "/proj")), []) ∧
    plugin_build false ⟨false, true, true, true⟩ "/proj" "python3.6"
      = (.error (.standardDistNotFound (sdistMsg "/proj")), []) :=
  ⟨rfl,
   c1_missing_sdist_fails_fast true ⟨false, true, true, true⟩ "/proj" "python3.6" rfl,
   c1_missing_sdist_fails_fast false ⟨false, true, true, true⟩ "/proj" "python3.6" rfl⟩

/-- C5: the pre-clean step never raises — removing a missing build output
directory is success — and this is the only not-found condition treated as
success: a missing support sdist is `StandardDistNotFoundError` and a
missing pip executable is `DownstreamError`. -/
theorem c5_cleanup_missing_dir_ok :
    (∀ dirExists : Bool, remove_build_artifacts dirExists = .ok ()) ∧
    (∀ p : String,
      check_for_support_lib_sdist ⟨false, true, true, true⟩ p
        = .error (.standardDistNotFound (sdistMsg p))) ∧
    (∀ p : String,
      (pip_build ⟨true, true, false, true⟩ p).1
        = .error (.downstreamError "pip build failed")) := by
  refine ⟨?_, ?_, ?_⟩
  · intro d; cases d <;> rfl
  · intro p; rfl
  · intro p; rfl

/-- Modelled from the claim's words: the shared install-command shape, with
the base path as the only parameter — flags in the order `--no-cache-dir`,
`--no-color`, `--disable-pip-version-check`, `--upgrade`, `--find-links`,
`--requirement`, `--target`. -/
def installCommandShape (base : String) : List String :=
  ["--no-cache-dir",
   "--no-color",
   "--disable-pip-version-check",
   "--upgrade",
   "--find-links", base,
   "--requirement", base ++ "/requirements.txt",
   "--target", base ++ "/build"]

/-- C8: both strategies construct the identical install command — the same
flags in the same order — differing only in the base path: the container
strategy substitutes the internal mount path `/project` where the local
strategy uses the host project root. -/
theorem c8_same_command_modulo_base (base runtime : String) (env : BuildEnv)
    (h : env.sdistExists = true) :
    (∀ p, make_pip_command p = ["pip", "install"] ++ installCommandShape p) ∧
    (docker_build env base runtime).2
      = [.containerRun ("lambci/lambda:build-" ++ runtime)
          (joinSpace (["pip", "install"] ++ installCommandShape "/project"))] ∧
    (pip_build env base).2
      = [.processRun (["pip", "install"] ++ installCommandShape base) base] := by
  obtain ⟨s, dk, pf, pz⟩ := env
  have hs : s = true := h
  subst hs
  refine ⟨fun p => rfl, ?_, ?_⟩
  · cases dk <;> rfl
  · cases pf <;> cases pz <;> rfl

/-- Witness for C8: concrete host path and runtime. -/
theorem c8_same_command_modulo_base_witness :
    make_pip_command "/p" = ["pip", "install"] ++ installCommandShape "/p" ∧
    (docker_build ⟨true, true, true, true⟩ "/p" "python3.6").2
      = [.containerRun ("lambci/lambda:build-" ++ "python3.6")
          (joinSpace (["pip", "install"] ++ installCommandShape "/project"))] ∧
    (pip_build ⟨true, true, true, true⟩ "/p").2
      = [.processRun (["pip", "install"] ++ installCommandShape "/p") "/p"] :=
  ⟨(c8_same_command_modulo_base "/p" "python3.6" ⟨true, true, true, true⟩ rfl).1 "/p",
   (c8_same_command_modulo_base "/p" "python3.6" ⟨true, true, true, true⟩ rfl).2.1,
   (c8_same_command_modulo_base "/p" "python3.6" ⟨true, true, true, true⟩ rfl).2.2⟩

/-- C10: when the persisted settings contain no `use_docker` entry, the
flag defaults to `True` both in the plugin constructor and in
`_init_from_project`, so `package` dispatches to the Docker build path. -/
theorem c10_use_docker_defaults_true (settings : List (String × Bool))
    (env : BuildEnv) (base_path runtime : String)
    (h : settings.lookup "use_docker" = Option.none) :
    plugin_init_use_docker = true ∧
    init_from_project_use_docker settings = true ∧
    package_build settings env base_path runtime
      = docker_build env base_path runtime := by
  have h2 : init_from_project_use_docker settings = true := by
    rw [init_from_project_use_docker, h]
  exact ⟨rfl, h2, by simp [package_build, h2, plugin_build]⟩

/-- Witness for C10: empty settings select the Docker build path. -/
theorem c10_use_docker_defaults_true_witness :
    plugin_init_use_docker = true ∧
    init_from_project_use_docker [] = true ∧
    package_build [] ⟨true, true, true, true⟩ "/p" "python3.6"
      = docker_build ⟨true, true, true, true⟩ "/p" "python3.6" :=
  c10_use_docker_defaults_true [] ⟨true, true, true, true⟩ "/p" "python3.6" rfl
